import Mathlib

/-!
Verification of the single-item rendezvous channel, timeout combinator and
test harness of `node/subsystem-test-helpers/src/lib.rs`.

The embedding models wakers as abstract identifiers (`Waker := Nat`); an
operation that may wake parked tasks returns, besides its poll result and
the successor slot state, the list of wakers it woke (in the order the
source wakes them).  Panics are modelled as an explicit constructor carrying
the panic message.  Operations that the source writes against
`std::task::Context` take the current task's waker as an argument.
-/

namespace SubsystemTestHelpers

/-- An abstract waker identity (`std::task::Waker` in the source). -/
abbrev Waker := Nat

/-- `std::task::Poll`. -/
inductive Poll (α : Type) where
  | Ready : α → Poll α
  | Pending : Poll α
deriving DecidableEq, Repr

/-- `SinkState<T>`: the single shared slot of the rendezvous channel.
`Empty` holds at most one parked reader waker; `Item` holds the value plus
at most one parked writer (`ready_waker`) and one parked flush waker. -/
inductive SinkState (α : Type) where
  | Empty : Option Waker → SinkState α
  | Item : α → Option Waker → Option Waker → SinkState α
deriving DecidableEq, Repr

/-- `SingleItemSink::poll_ready`: `Ready(Ok(()))` on an empty slot; on an
occupied slot, store the current waker as the writer (`ready_waker`) waker,
replacing any previous one, and return `Pending`. -/
def poll_ready {α : Type} (state : SinkState α) (cx : Waker) :
    Poll Unit × SinkState α :=
  match state with
  | .Empty rw => (.Ready (), .Empty rw)
  | .Item item _ fw => (.Pending, .Item item (some cx) fw)

/-- Outcome of `SingleItemSink::start_send`: either `Ok(())` with the new
slot state and the wakers woken, or a panic with the source's message. -/
inductive StartSendResult (α : Type) where
  | ok : SinkState α → List Waker → StartSendResult α
  | panicked : String → StartSendResult α
deriving DecidableEq, Repr

/-- `SingleItemSink::start_send`: on an empty slot, wake the parked reader
waker if present and store the item with no waiters registered; on an
occupied slot, panic. -/
def start_send {α : Type} (state : SinkState α) (item : α) :
    StartSendResult α :=
  match state with
  | .Empty rw => .ok (.Item item none none) rw.toList
  | .Item _ _ _ =>
      .panicked "start_send called outside of empty sink state ensured by poll_ready"

/-- `SingleItemSink::poll_flush`: `Ready(Ok(()))` on an empty slot; on an
occupied slot, store the current waker as the flush waker, replacing any
previous one, and return `Pending`. -/
def poll_flush {α : Type} (state : SinkState α) (cx : Waker) :
    Poll Unit × SinkState α :=
  match state with
  | .Empty rw => (.Ready (), .Empty rw)
  | .Item item rw _ => (.Pending, .Item item rw (some cx))

/-- `SingleItemSink::poll_close`: delegates to `poll_flush` unchanged. -/
def poll_close {α : Type} (state : SinkState α) (cx : Waker) :
    Poll Unit × SinkState α :=
  poll_flush state cx

/-- `SingleItemStream::poll_next`: `mem::replace` first installs
`Empty { read_waker: some cx }` unconditionally (registration happens before
the old state is inspected), then: the old state `Empty` gives `Pending`;
the old state `Item` gives `Ready(Some(item))` after waking the parked
writer waker and then the parked flush waker, in that order. -/
def poll_next {α : Type} (state : SinkState α) (cx : Waker) :
    Poll (Option α) × SinkState α × List Waker :=
  match state with
  | .Empty _ => (.Pending, .Empty (some cx), [])
  | .Item item rw fw =>
      (.Ready (some item), .Empty (some cx), rw.toList ++ fw.toList)

/-- The error of `SubsystemResult` (`polkadot_node_subsystem::SubsystemError`). -/
inductive SubsystemError where
  | mk
deriving DecidableEq, Repr

/-- `TestSubsystemContext::try_recv`: the result of matching on a single
`poll!(self.rx.next())` outcome — `Ready(Some(msg))` maps to `Ok(Some(msg))`,
`Ready(None)` (stream ended) to `Err(())`, `Pending` to `Ok(None)`.
The function is total on the one poll outcome: it never suspends. -/
def try_recv {μ : Type} (pollOutcome : Poll (Option μ)) :
    Except Unit (Option μ) :=
  match pollOutcome with
  | .Ready (some msg) => .ok (some msg)
  | .Ready none => .error ()
  | .Pending => .ok none

/-- `TestSubsystemContext::recv`: `self.rx.next().await.ok_or(SubsystemError)`
applied to the value the awaited stream eventually yields. -/
def recv {μ : Type} (nextOutcome : Option μ) : Except SubsystemError μ :=
  match nextOutcome with
  | some msg => .ok msg
  | none => .error .mk

/-- `TestSubsystemContextHandle::try_recv`: `self.rx.next().await` on the
unbounded mpsc receiver — `None` when the channel is closed and drained. -/
def handle_try_recv {μ : Type} (nextOutcome : Option μ) : Option μ :=
  nextOutcome

/-- Outcome of `TestSubsystemContextHandle::recv`: a message, or a panic
with the `expect` message. -/
inductive HandleRecvOutcome (μ : Type) where
  | msg : μ → HandleRecvOutcome μ
  | panicked : String → HandleRecvOutcome μ
deriving DecidableEq, Repr

/-- `TestSubsystemContextHandle::recv`:
`self.try_recv().await.expect("Test subsystem no longer live")`. -/
def handle_recv {μ : Type} (nextOutcome : Option μ) : HandleRecvOutcome μ :=
  match handle_try_recv nextOutcome with
  | some m => .msg m
  | none => .panicked "Test subsystem no longer live"

namespace Timeout

/-- `Timeout::poll`: poll the delay first; if it is ready, resolve to
`Ready(None)` without polling the wrapped future; otherwise poll the
wrapped future and forward its readiness.  The second component records
whether the wrapped future was polled during this call. -/
def poll {α : Type} (delayReady : Bool) (futurePoll : Poll α) :
    Poll (Option α) × Bool :=
  if delayReady then (.Ready none, false)
  else
    match futurePoll with
    | .Ready output => (.Ready (some output), true)
    | .Pending => (.Pending, true)

end Timeout

/-- Which of the three raced futures of `subsystem_test_harness` completes
first inside the `select!`. -/
inductive HarnessWinner where
  | overseer
  | test
  | timeout
deriving DecidableEq, Repr

/-- The duration of the harness deadline timer, in seconds
(`Delay::new(Duration::from_secs(2))`). -/
def harness_timeout_secs : Nat := 2

/-- Outcome of the harness `block_on`: normal completion, or a panic with
the source's message. -/
inductive HarnessOutcome where
  | completed
  | panicked : String → HarnessOutcome
deriving DecidableEq, Repr

/-- The `select!` body of `subsystem_test_harness`: the first of the three
futures to finish decides the outcome — the overseer or test arms complete
the run, the timeout arm panics. -/
def subsystem_test_harness_select (winner : HarnessWinner) : HarnessOutcome :=
  match winner with
  | .overseer => .completed
  | .test => .completed
  | .timeout => .panicked "test timed out instead of completing"

/-- C1: every `SingleItemStream::poll_next` leaves the polling task's waker
registered as the read waker (it is stored before the old state is
inspected, so the registration happens in both branches); an `Empty` slot
polls `Pending` waking nobody, and an occupied slot polls
`Ready(Some(item))` after waking the parked writer waker and parked flush
waker when present. -/
theorem C1_poll_next_registers_then_dispatches {α : Type} (cx : Waker) :
    (∀ rw : Option Waker,
      poll_next (SinkState.Empty rw : SinkState α) cx =
        (Poll.Pending, SinkState.Empty (some cx), [])) ∧
    (∀ (item : α) (rw fw : Option Waker),
      poll_next (SinkState.Item item rw fw) cx =
        (Poll.Ready (some item), SinkState.Empty (some cx),
          rw.toList ++ fw.toList)) := by
  constructor
  · intro rw
    rfl
  · intro item rw fw
    rfl

/-- C2: `Timeout::poll` checks the deadline before the wrapped future: when
the delay is ready it resolves to `Ready(None)` for every wrapped-future
state, including a simultaneously ready one, and the wrapped future is not
polled at all; the wrapped future is polled exactly when the delay is not
ready. -/
theorem C2_timeout_deadline_priority {α : Type} (output : α) :
    Timeout.poll true (Poll.Ready output) = (Poll.Ready none, false) ∧
    (∀ futurePoll : Poll α,
      Timeout.poll true futurePoll = (Poll.Ready (none : Option α), false)) ∧
    (∀ futurePoll : Poll α, (Timeout.poll false futurePoll).2 = true) := by
  refine ⟨rfl, fun futurePoll => rfl, fun futurePoll => ?_⟩
  cases futurePoll <;> rfl

/-- C3: `SingleItemSink::start_send` on an occupied slot panics with the
source's message rather than returning an error, and on an empty slot it
wakes the parked reader waker when one is present, stores the item with no
writer or flush waiters, and returns `Ok`. -/
theorem C3_start_send_contract {α : Type} (item : α) :
    (∀ (oldItem : α) (rw fw : Option Waker),
      start_send (SinkState.Item oldItem rw fw) item =
        StartSendResult.panicked
          "start_send called outside of empty sink state ensured by poll_ready") ∧
    (∀ rw : Option Waker,
      start_send (SinkState.Empty rw : SinkState α) item =
        StartSendResult.ok (SinkState.Item item none none) rw.toList) := by
  exact ⟨fun oldItem rw fw => rfl, fun rw => rfl⟩

/-- C4: `SingleItemSink::poll_ready` is `Ready` exactly on an `Empty` slot
(which it leaves untouched); on an occupied slot it stores the current
waker as the writer waker, replacing any previously registered one, keeps
the item and the flush waker unchanged, and returns `Pending`. -/
theorem C4_poll_ready_iff_empty {α : Type} (cx : Waker) :
    (∀ rw : Option Waker,
      poll_ready (SinkState.Empty rw : SinkState α) cx =
        (Poll.Ready (), SinkState.Empty rw)) ∧
    (∀ (item : α) (rw fw : Option Waker),
      poll_ready (SinkState.Item item rw fw) cx =
        (Poll.Pending, SinkState.Item item (some cx) fw)) := by
  exact ⟨fun rw => rfl, fun item rw fw => rfl⟩

/-- C5 (counterpart of the claimed peer-closed propagation): polling the
reader side of an `Empty` slot returns `Pending` whatever else has
happened — the slot state has no representation of the sink half being
dropped, and `poll_next` never yields the stream-terminated outcome
`Ready(None)`, which is the only outcome `recv` maps to `SubsystemError`. -/
theorem C5_empty_slot_never_resolves {α : Type} (cx : Waker) :
    (∀ rw : Option Waker,
      poll_next (SinkState.Empty rw : SinkState α) cx =
        (Poll.Pending, SinkState.Empty (some cx), [])) ∧
    (∀ state : SinkState α,
      (poll_next state cx).1 = Poll.Pending ∨
        ∃ item : α, (poll_next state cx).1 = Poll.Ready (some item)) ∧
    recv (none : Option α) = Except.error SubsystemError.mk := by
  refine ⟨fun rw => rfl, fun state => ?_, rfl⟩
  cases state with
  | Empty rw => exact Or.inl rfl
  | Item item rw fw => exact Or.inr ⟨item, rfl⟩

/-- C6: the harness `select!` races exactly the three futures overseer,
test and timeout; the first to finish ends the run, completion of either
participant is accepted even if the other is unfinished, the timeout arm
panics with the diagnostic, and the deadline timer is 2 seconds. -/
theorem C6_harness_races_three_futures :
    subsystem_test_harness_select HarnessWinner.overseer =
      HarnessOutcome.completed ∧
    subsystem_test_harness_select HarnessWinner.test =
      HarnessOutcome.completed ∧
    subsystem_test_harness_select HarnessWinner.timeout =
      HarnessOutcome.panicked "test timed out instead of completing" ∧
    harness_timeout_secs = 2 := by
  exact ⟨rfl, rfl, rfl, rfl⟩

/-- C7: `SingleItemSink::poll_close` is extensionally identical to
`poll_flush`: for every state and waker the two agree, being `Ready` on an
`Empty` slot and otherwise registering the caller as the flush waiter
(replacing any previous one) and returning `Pending`. -/
theorem C7_poll_close_is_poll_flush {α : Type} (cx : Waker) :
    (∀ state : SinkState α, poll_close state cx = poll_flush state cx) ∧
    (∀ rw : Option Waker,
      poll_close (SinkState.Empty rw : SinkState α) cx =
        (Poll.Ready (), SinkState.Empty rw)) ∧
    (∀ (item : α) (rw fw : Option Waker),
      poll_close (SinkState.Item item rw fw) cx =
        (Poll.Pending, SinkState.Item item rw (some cx))) := by
  exact ⟨fun state => rfl, fun rw => rfl, fun item rw fw => rfl⟩

/-- C8: `TestSubsystemContext::try_recv` is a total function of one poll of
the inbound stream, distinguishing the three outcomes: an available message
gives `Ok(Some(msg))`, a terminated stream gives `Err(())`, and `Pending`
gives `Ok(None)`. -/
theorem C8_try_recv_three_outcomes {μ : Type} (msg : μ) :
    try_recv (Poll.Ready (some msg)) = Except.ok (some msg) ∧
    try_recv (Poll.Ready (none : Option μ)) = Except.error () ∧
    try_recv (Poll.Pending : Poll (Option μ)) = Except.ok none := by
  exact ⟨rfl, rfl, rfl⟩

/-- C9: after any `poll_next` — also one returning an item — the slot is
`Empty` with the polling task's waker stored as the read waker, so a
subsequent `start_send` into that state wakes exactly that waker. -/
theorem C9_reader_stays_registered {α : Type} (state : SinkState α)
    (cx : Waker) (item : α) :
    (poll_next state cx).2.1 = SinkState.Empty (some cx) ∧
    start_send (SinkState.Empty (some cx) : SinkState α) item =
      StartSendResult.ok (SinkState.Item item none none) [cx] := by
  refine ⟨?_, rfl⟩
  cases state <;> rfl

/-- C10: `TestSubsystemContextHandle::recv` on a closed outbound channel
panics with "Test subsystem no longer live", while `handle_try_recv`
reports the same condition non-fatally as `None`; on an available message
`recv` returns the message, never an error value. -/
theorem C10_handle_recv_panics_on_close {μ : Type} (msg : μ) :
    handle_recv (some msg) = HandleRecvOutcome.msg msg ∧
    handle_recv (none : Option μ) =
      HandleRecvOutcome.panicked "Test subsystem no longer live" ∧
    handle_try_recv (none : Option μ) = none := by
  exact ⟨rfl, rfl, rfl⟩

end SubsystemTestHelpers
